import Mathlib

/-!
Verification development for the babelcast per-session relay pipeline
(`conn.go`).  The Go code is shallowly embedded: byte strings are
`List Nat` (each element a byte value `< 256`), machine `uint32`
arithmetic is `Nat` reduced modulo `2^32`, and the effectful pieces
(bus sockets, WebRTC handles, goroutine loops) are modelled as pure
state-transformers together with explicit action traces.  The session
mutex serializes every critical section in the source, so concurrent
call patterns are modelled as sequential compositions of the
lock-guarded bodies.
-/

namespace Babelcast

/-- Read four little-endian bytes as a 32-bit unsigned value
(`binary.LittleEndian.Uint32`). -/
def uint32LE (bs : List Nat) : Nat :=
  match bs with
  | b0 :: b1 :: b2 :: b3 :: _ => b0 + b1 * 256 + b2 * 65536 + b3 * 16777216
  | _ => 0

/-- Write a 32-bit unsigned value as four little-endian bytes
(`binary.LittleEndian.PutUint32` / `binary.Write` of a `uint32`). -/
def putUint32LE (n : Nat) : List Nat :=
  [n % 256, n / 256 % 256, n / 65536 % 256, n / 16777216 % 256]

/-- One step of the 32-bit FNV-1a hash: xor in the byte, multiply by the
FNV prime, truncate to 32 bits. -/
def fnvStep (h b : Nat) : Nat := ((h ^^^ b) * 16777619) % 4294967296

/-- The `hash` function of `conn.go`: 32-bit FNV-1a over the UTF-8 bytes
of the channel name (`fnv.New32a`; offset basis 2166136261). -/
def hash (s : List Nat) : Nat := s.foldl fnvStep 2166136261

/-- Identifier of a mangos socket: the process-wide shared publish
socket (`pubSocket`) or a private subscriber socket created by
`sub.NewSocket()`. -/
inductive SockId
  | pub
  | priv (n : Nat)
  deriving DecidableEq, Repr

/-- The mutable fields of `Conn` that the claims are about.  Handles
held through pointers in Go (`rtcPeer`, `wsConn`, the quit channel) are
modelled by their presence (`Bool`); byte-string fields are `List Nat`. -/
structure Conn where
  rtcPeer : Bool
  wsConn : Bool
  spSock : Option SockId
  channelName : List Nat
  spTopic : List Nat
  trackQuitChan : Bool
  isPublisher : Bool
  hasClosed : Bool
  deriving DecidableEq, Repr

/-- The state produced by `NewConn`: the websocket and the quit channel
exist, nothing else is set up. -/
def NewConn : Conn :=
  { rtcPeer := false, wsConn := true, spSock := none, channelName := [],
    spTopic := [], trackQuitChan := true, isPublisher := false,
    hasClosed := false }

/-- The `setTopic` method: stores `putUint32LE (hash c.channelName)` in
`spTopic`.  (The source hashes the field `c.channelName`, not the
`channelName` parameter; both call sites pass the field, so the
parameter is kept only for fidelity.) -/
def setTopic (c : Conn) (channelName : List Nat) : Conn :=
  { c with spTopic := putUint32LE (hash c.channelName) }

/-- Whether a byte is allowed in a channel name: ASCII alphanumerics and
space.  `channelRegexp` is the negation `[^a-zA-Z0-9 ]+`. -/
def validChannelByte (b : Nat) : Bool :=
  (65 ≤ b && b ≤ 90) || (97 ≤ b && b ≤ 122) || (48 ≤ b && b ≤ 57) || b == 32

/-- `channelRegexp.MatchString`: true iff some byte of the name falls
outside `[a-zA-Z0-9 ]`. -/
def channelRegexpMatch (s : List Nat) : Bool :=
  s.any (fun b => ! validChannelByte b)

/-- A connect command (`CmdConnect`): channel name and password, as
UTF-8 byte strings. -/
structure CmdConnect where
  Channel : List Nat
  Password : List Nat
  deriving DecidableEq, Repr

/-- The frame layout produced by the publisher pipeline
(`rtcTrackHandler` lines building `buf`): topic bytes, then the sample
count as a little-endian `uint32`, then the opaque payload. -/
def encodeFrame (topic : List Nat) (samples : Nat) (payload : List Nat) : List Nat :=
  topic ++ putUint32LE samples ++ payload

/-- Result of the subscriber-side decode of a bus frame. -/
inductive DecodeResult
  | panicked
  | ok (samples : Nat) (payload : List Nat)
  deriving DecidableEq, Repr

/-- The subscriber-side decode (`connectSubscriber` receive loop):
`data[4:8]` read as a little-endian `uint32` and `data[8:]` as payload.
The Go expressions `data[4:8]` and `data[8:]` are slice operations whose
bounds are unchecked by the surrounding code: on a received message of
fewer than 8 bytes they panic at runtime (slice bounds out of range),
which `decodeFrame` records as `panicked`. -/
def decodeFrame (data : List Nat) : DecodeResult :=
  if data.length < 8 then .panicked
  else .ok (uint32LE ((data.drop 4).take 4)) (data.drop 8)

/-- `connectPublisher`: validation checks in source order, then the
state mutations (channel name, topic, shared publish socket), then the
registry call whose outcome is the oracle `regErr`.  The result pairs
the session state as left by the call with the returned error, so a
validation failure is visibly state-preserving. -/
def connectPublisher (publisherPassword : List Nat) (regErr : Option String)
    (c : Conn) (cmd : CmdConnect) : Conn × Option String :=
  if c.rtcPeer = false then (c, some "webrtc session not established")
  else if cmd.Channel = [] then (c, some "channel cannot be empty")
  else if channelRegexpMatch cmd.Channel then
    (c, some "channel name must contain only alphanumeric characters")
  else if publisherPassword ≠ [] ∧ cmd.Password ≠ publisherPassword then
    (c, some "incorrect password")
  else
    let c1 := { c with channelName := cmd.Channel }
    let c2 := setTopic c1 c1.channelName
    let c3 := { c2 with spSock := some SockId.pub }
    match regErr with
    | some e => (c3, some e)
    | none => (c3, none)

/-- Outcomes of the fallible external calls made by `connectSubscriber`:
socket creation, dial, topic subscription, registry. -/
structure SubOracle where
  newSockErr : Option String
  dialErr : Option String
  subscribeErr : Option String
  regErr : Option String
  deriving Repr

/-- `connectSubscriber` up to (and excluding) spawning the receive
goroutine: validations in source order, then channel-name assignment,
private socket creation (`sid` names the fresh socket), dial, topic
derivation, subscription, registry.  The third component is the filter
byte string handed to `SetOption(OptionSubscribe, ...)` when that call
is reached. -/
def connectSubscriber (o : SubOracle) (sid : Nat) (c : Conn) (cmd : CmdConnect) :
    Conn × Option String × Option (List Nat) :=
  if c.rtcPeer = false then (c, some "webrtc session not established", none)
  else if cmd.Channel = [] then (c, some "channel cannot be empty", none)
  else if channelRegexpMatch cmd.Channel then
    (c, some "channel name must contain only alphanumeric characters", none)
  else
    let c1 := { c with channelName := cmd.Channel }
    match o.newSockErr with
    | some e => (c1, some ("can't get new sub socket: " ++ e), none)
    | none =>
      let c2 := { c1 with spSock := some (SockId.priv sid) }
      match o.dialErr with
      | some e => (c2, some ("sub can't dial " ++ e), none)
      | none =>
        let c3 := setTopic c2 c2.channelName
        match o.subscribeErr with
        | some e => (c3, some ("sub can't subscribe " ++ e), some c3.spTopic)
        | none =>
          match o.regErr with
          | some e => (c3, some e, some c3.spTopic)
          | none => (c3, none, some c3.spTopic)

/-- Modelled from the spec: the signaling dispatch loop that handles the
connect-publisher command is not under `src/` (only `conn.go` is); per
the spec the transition `SignalingReady → RoleBound(Publisher)` binds
the session's role to publisher, which in the embedding is the
`isPublisher` flag consulted by `Close`.  The dispatcher marks the role
and invokes `connectPublisher`. -/
def dispatchConnectPublisher (publisherPassword : List Nat) (regErr : Option String)
    (c : Conn) (cmd : CmdConnect) : Conn × Option String :=
  connectPublisher publisherPassword regErr { c with isPublisher := true } cmd

/-- A resource-release action performed by `Close`. -/
inductive CloseAction
  | closeQuitChan
  | closeRtcPeer
  | closeSock (s : SockId)
  | closeWs
  deriving DecidableEq, Repr

/-- The `Close` method, whose whole body runs under the session mutex:
if `hasClosed` is already set it returns at once; otherwise it closes,
nil-checked, the quit channel, the peer handle, the bus socket (only
when the session is not a publisher), the websocket, and finally sets
`hasClosed`.  Returns the new state and the trace of release actions. -/
def Close (c : Conn) : Conn × List CloseAction :=
  if c.hasClosed then (c, [])
  else
    ({ c with hasClosed := true },
      (if c.trackQuitChan then [CloseAction.closeQuitChan] else []) ++
      (if c.rtcPeer then [CloseAction.closeRtcPeer] else []) ++
      (match c.spSock with
       | some s => if c.isPublisher then [] else [CloseAction.closeSock s]
       | none => []) ++
      (if c.wsConn then [CloseAction.closeWs] else []))

/-- `n` sequential invocations of `Close` on the same session.  The
mutex in the source serializes concurrent callers, so any concurrent
invocation pattern executes as some such sequence. -/
def closeN : Nat → Conn → Conn × List CloseAction
  | 0, c => (c, [])
  | n + 1, c =>
    let r1 := Close c
    let r2 := closeN n r1.1
    (r2.1, r1.2 ++ r2.2)

/-- Error returned by a bus receive: `mangos.ErrClosed` or anything
else. -/
inductive RecvErr
  | closed
  | other (msg : String)
  deriving DecidableEq, Repr

/-- Result of one `spSock.Recv()` call. -/
inductive RecvResult
  | ok (data : List Nat)
  | err (e : RecvErr)
  deriving DecidableEq, Repr

/-- Environment of one iteration of the subscriber receive loop: the
context cancellation status sampled by the non-blocking select, the
receive result, and the result of `track.WriteSample` (which the source
discards). -/
structure SubIter where
  ctxDone : Bool
  recv : RecvResult
  writeErr : Option String
  deriving DecidableEq, Repr

/-- Observable action of the subscriber goroutine. -/
inductive SubAction
  | sendErrChan (msg : String)
  | writeSample (samples : Nat) (payload : List Nat)
  | closeSession
  deriving DecidableEq, Repr

/-- How a run of the subscriber goroutine ended. -/
inductive SubFinal
  | running
  | exited
  | crashed
  deriving DecidableEq, Repr

/-- The subscriber receive goroutine spawned by `connectSubscriber`,
run over a list of per-iteration environments.  A context-done or
`mangos.ErrClosed` receive returns from the goroutine, which runs the
deferred `c.Close()` (`closeSession`).  Any other receive error is sent
on `errChan` and the loop continues.  A decodable frame is written to
the outbound track (the write result is discarded) and the loop
continues.  A frame shorter than 8 bytes panics; Go still runs the
deferred `c.Close()` before the panic propagates, recorded as `crashed`. -/
def subRun : List SubIter → List SubAction × SubFinal
  | [] => ([], SubFinal.running)
  | it :: rest =>
    if it.ctxDone then ([SubAction.closeSession], SubFinal.exited)
    else
      match it.recv with
      | RecvResult.err RecvErr.closed => ([SubAction.closeSession], SubFinal.exited)
      | RecvResult.err (RecvErr.other m) =>
        let r := subRun rest
        (SubAction.sendErrChan ("sub sock recv err " ++ m) :: r.1, r.2)
      | RecvResult.ok data =>
        match decodeFrame data with
        | DecodeResult.panicked => ([SubAction.closeSession], SubFinal.crashed)
        | DecodeResult.ok s p =>
          let r := subRun rest
          (SubAction.writeSample s p :: r.1, r.2)

/-- Result of one `track.ReadRTP()` call (the packet itself is carried
through the sample builder, abstracted below). -/
inductive ReadResult
  | ok
  | err (msg : String)
  deriving DecidableEq, Repr

/-- Error returned by `spSock.Send`: `mangos.ErrClosed` or anything
else. -/
inductive SendErr
  | closed
  | other (msg : String)
  deriving DecidableEq, Repr

/-- Environment of one iteration of the publisher track-handler loop:
the quit-channel status sampled by the non-blocking select, the RTP read
result, the sample (if any) that `sb.Pop()` would yield after this push,
and the bus send outcome. -/
structure PubIter where
  quitClosed : Bool
  readResult : ReadResult
  popResult : Option (Nat × List Nat)
  sendErr : Option SendErr
  deriving DecidableEq, Repr

/-- Observable action of the publisher goroutine. -/
inductive PubAction
  | sendErrChan (msg : String)
  | sbPush
  | publish (frame : List Nat)
  | closeSession
  deriving DecidableEq, Repr

/-- One iteration of the goroutine started by `rtcTrackHandler`, as a
function of the session state it observes under the mutex.  Returns the
action trace and whether the loop proceeds to the next iteration; a
return from the goroutine runs the deferred `c.Close()` (`closeSession`).
The `spSock == nil` check happens before `sb.Push(p)`: when no bus
binding exists the iteration contributes no action at all. -/
def pubStep (c : Conn) (it : PubIter) : List PubAction × Bool :=
  if it.quitClosed then ([PubAction.closeSession], false)
  else
    match it.readResult with
    | ReadResult.err m =>
      ([PubAction.sendErrChan ("error reading RTP packet: " ++ m)], true)
    | ReadResult.ok =>
      if c.spSock = none then ([], true)
      else
        match it.popResult with
        | none => ([PubAction.sbPush], true)
        | some sp =>
          let frame := encodeFrame c.spTopic sp.1 sp.2
          match it.sendErr with
          | some SendErr.closed =>
            ([PubAction.sbPush, PubAction.publish frame, PubAction.closeSession], false)
          | some (SendErr.other m) =>
            ([PubAction.sbPush, PubAction.publish frame,
              PubAction.sendErrChan ("pub send failed: " ++ m)], true)
          | none => ([PubAction.sbPush, PubAction.publish frame], true)

/-- One value drained by the `LogHandler` event-relay loop. -/
inductive LogEvent
  | ctxDone
  | fromErrChan (msg : String)
  | fromInfoChan (msg : String)
  deriving DecidableEq, Repr

/-- Observable action of the event-relay loop. -/
inductive LogAction
  | wroteMsg (key : String) (value : String)
  | logWriteFailure (msg : String)
  | closeSession
  deriving DecidableEq, Repr

/-- One iteration of `LogHandler`, as a function of the drained event
and of the outcome of the `writeMsg` delivery attempt (`writeErr`).
An error value is serialized under key "error"; a delivery failure is
only logged; the session is then closed and the loop keeps running.  An
info value is serialized under key "info" with no close.  Returns the
action trace and whether the loop continues. -/
def logStep (writeErr : Option String) (e : LogEvent) : List LogAction × Bool :=
  match e with
  | LogEvent.ctxDone => ([], false)
  | LogEvent.fromErrChan m =>
    ([LogAction.wroteMsg "error" m] ++
      (match writeErr with
       | some w => [LogAction.logWriteFailure w]
       | none => []) ++
      [LogAction.closeSession], true)
  | LogEvent.fromInfoChan m =>
    ([LogAction.wroteMsg "info" m] ++
      (match writeErr with
       | some w => [LogAction.logWriteFailure w]
       | none => []), true)

/-! ## Helper lemmas -/

/-- The FNV-1a accumulator stays below `2^32`. -/
lemma foldl_fnvStep_lt (s : List Nat) :
    ∀ h : Nat, h < 4294967296 → s.foldl fnvStep h < 4294967296 := by
  induction s with
  | nil => intro h hh; simpa using hh
  | cons b t ih =>
    intro h hh
    exact ih _ (Nat.mod_lt _ (by norm_num))

/-- The 32-bit hash of any byte string is below `2^32`. -/
lemma hash_lt (s : List Nat) : hash s < 4294967296 :=
  foldl_fnvStep_lt s 2166136261 (by norm_num)

/-- Reading back four little-endian bytes recovers a value below `2^32`. -/
lemma uint32LE_putUint32LE (n : Nat) (h : n < 4294967296) :
    uint32LE (putUint32LE n) = n := by
  simp only [putUint32LE, uint32LE]
  omega

/-- The encoded sample count occupies exactly four bytes. -/
lemma putUint32LE_length (n : Nat) : (putUint32LE n).length = 4 := by
  simp [putUint32LE]

/-- Closing an already-closed session does nothing. -/
lemma Close_of_closed (c : Conn) (h : c.hasClosed = true) : Close c = (c, []) := by
  unfold Close
  rw [if_pos h]

/-- After any `Close` call the session is marked closed. -/
lemma Close_fst_hasClosed (c : Conn) : (Close c).1.hasClosed = true := by
  by_cases h : c.hasClosed = true
  · rw [Close_of_closed c h]
    exact h
  · unfold Close
    rw [if_neg h]

/-- Any number of `Close` calls on a closed session does nothing. -/
lemma closeN_of_closed (n : Nat) (c : Conn) (h : c.hasClosed = true) :
    closeN n c = (c, []) := by
  induction n with
  | zero => rfl
  | succ k ih => simp [closeN, Close_of_closed c h, ih]

/-- `Close` of a publisher session never emits a socket-close action. -/
lemma Close_publisher_no_sock_action (c : Conn) (h : c.isPublisher = true) (s : SockId) :
    CloseAction.closeSock s ∉ (Close c).2 := by
  obtain ⟨rtc, ws, sp, cn, st, tq, ip, hcl⟩ := c
  have hip : ip = true := h
  subst hip
  unfold Close
  rcases sp with _ | s2 <;> split_ifs <;> simp

/-! ## Claim theorems -/

/-- C4.  Round-trip law: for every 4-byte topic, every `uint32` sample
count and every non-empty payload, the publisher-side frame is exactly
`8 + payload.length` bytes long, and the subscriber-side decode of that
frame recovers the sample count and the payload exactly. -/
theorem encode_decode_roundtrip (topic : List Nat) (samples : Nat) (payload : List Nat)
    (htopic : topic.length = 4) (hs : samples < 4294967296) (hp : payload ≠ []) :
    (encodeFrame topic samples payload).length = 8 + payload.length ∧
    decodeFrame (encodeFrame topic samples payload) = DecodeResult.ok samples payload := by
  have hputlen : (putUint32LE samples).length = 4 := putUint32LE_length samples
  have hlen : (encodeFrame topic samples payload).length = 8 + payload.length := by
    simp [encodeFrame, htopic, hputlen]
    omega
  refine ⟨hlen, ?_⟩
  have hnl : ¬ (encodeFrame topic samples payload).length < 8 := by omega
  have hdrop4 : (encodeFrame topic samples payload).drop 4 = putUint32LE samples ++ payload := by
    unfold encodeFrame
    rw [List.append_assoc]
    exact List.drop_left' htopic
  have hdrop8 : (encodeFrame topic samples payload).drop 8 = payload := by
    unfold encodeFrame
    have h8 : (topic ++ putUint32LE samples).length = 8 := by
      simp [htopic, hputlen]
    exact List.drop_left' h8
  have htake : (putUint32LE samples ++ payload).take 4 = putUint32LE samples :=
    List.take_left' hputlen
  unfold decodeFrame
  rw [if_neg hnl, hdrop4, hdrop8, htake, uint32LE_putUint32LE samples hs]

/-- Witness for C4 at a concrete frame. -/
theorem encode_decode_roundtrip_witness :
    ([1, 2, 3, 4] : List Nat).length = 4 ∧ 7 < 4294967296 ∧ ([9] : List Nat) ≠ [] ∧
    ((encodeFrame [1, 2, 3, 4] 7 [9]).length = 8 + ([9] : List Nat).length ∧
      decodeFrame (encodeFrame [1, 2, 3, 4] 7 [9]) = DecodeResult.ok 7 [9]) :=
  ⟨by decide, by decide, by decide,
    encode_decode_roundtrip [1, 2, 3, 4] 7 [9] (by decide) (by decide) (by decide)⟩

/-- C7.  Subscriber receive-error taxonomy: a `mangos.ErrClosed` receive
error terminates the loop and (via the deferred call) closes the
session, with nothing sent to the error relay; any other receive error
is sent to the error relay and the loop continues with the next
receive. -/
theorem sub_recv_error_taxonomy (w : Option String) (m : String) (rest : List SubIter) :
    subRun ({ ctxDone := false, recv := RecvResult.err RecvErr.closed, writeErr := w } :: rest)
      = ([SubAction.closeSession], SubFinal.exited) ∧
    subRun ({ ctxDone := false, recv := RecvResult.err (RecvErr.other m), writeErr := w } :: rest)
      = (SubAction.sendErrChan ("sub sock recv err " ++ m) :: (subRun rest).1,
        (subRun rest).2) := by
  constructor <;> simp [subRun]

/-- C8.  Event-relay behaviour: an error value is serialized under key
"error" and always also closes the session; an info value is serialized
under key "info" and never closes the session; a failed delivery is
logged and the relay loop continues either way. -/
theorem event_relay_taxonomy (m w : String) :
    logStep none (LogEvent.fromErrChan m)
      = ([LogAction.wroteMsg "error" m, LogAction.closeSession], true) ∧
    logStep (some w) (LogEvent.fromErrChan m)
      = ([LogAction.wroteMsg "error" m, LogAction.logWriteFailure w,
          LogAction.closeSession], true) ∧
    logStep none (LogEvent.fromInfoChan m) = ([LogAction.wroteMsg "info" m], true) ∧
    logStep (some w) (LogEvent.fromInfoChan m)
      = ([LogAction.wroteMsg "info" m, LogAction.logWriteFailure w], true) ∧
    LogAction.closeSession ∉ (logStep (some w) (LogEvent.fromInfoChan m)).1 ∧
    LogAction.closeSession ∈ (logStep (some w) (LogEvent.fromErrChan m)).1 := by
  refine ⟨rfl, rfl, rfl, rfl, by simp [logStep], by simp [logStep]⟩

/-- C10.  The result of `track.WriteSample` is discarded: for every
decodable frame, the subscriber loop behaves identically whatever the
write result is, the step emits only the sample write (no error relay,
no close), and the loop proceeds with the remaining receives. -/
theorem track_write_result_discarded (data : List Nat) (w w2 : Option String)
    (rest : List SubIter) (h : 8 ≤ data.length) :
    subRun ({ ctxDone := false, recv := RecvResult.ok data, writeErr := w } :: rest)
      = subRun ({ ctxDone := false, recv := RecvResult.ok data, writeErr := w2 } :: rest) ∧
    subRun ({ ctxDone := false, recv := RecvResult.ok data, writeErr := w } :: rest)
      = (SubAction.writeSample (uint32LE ((data.drop 4).take 4)) (data.drop 8)
          :: (subRun rest).1,
        (subRun rest).2) := by
  have hd : decodeFrame data
      = DecodeResult.ok (uint32LE ((data.drop 4).take 4)) (data.drop 8) := by
    unfold decodeFrame
    rw [if_neg (by omega)]
  constructor <;> simp [subRun, hd]

/-- Witness for C10 at a concrete 9-byte frame. -/
theorem track_write_result_discarded_witness :
    8 ≤ ([0, 0, 0, 0, 1, 0, 0, 0, 9] : List Nat).length ∧
    subRun [{ ctxDone := false, recv := RecvResult.ok [0, 0, 0, 0, 1, 0, 0, 0, 9],
              writeErr := none }]
      = subRun [{ ctxDone := false, recv := RecvResult.ok [0, 0, 0, 0, 1, 0, 0, 0, 9],
                  writeErr := some "write failed" }] :=
  ⟨by decide,
    (track_write_result_discarded [0, 0, 0, 0, 1, 0, 0, 0, 9] none (some "write failed") []
      (by decide)).1⟩

/-- C3 (code behaviour at the failing input).  A bus frame shorter than
8 bytes is not handled as a recoverable malformed-frame error: the
slice expressions `data[4:8]` and `data[8:]` panic, so the subscriber
goroutine crashes (running only its deferred `Close`) instead of
reporting the error and continuing. -/
theorem short_frame_crashes_sub_loop (data : List Nat) (w : Option String)
    (rest : List SubIter) (h : data.length < 8) :
    decodeFrame data = DecodeResult.panicked ∧
    subRun ({ ctxDone := false, recv := RecvResult.ok data, writeErr := w } :: rest)
      = ([SubAction.closeSession], SubFinal.crashed) := by
  have hd : decodeFrame data = DecodeResult.panicked := by
    unfold decodeFrame
    rw [if_pos h]
  exact ⟨hd, by simp [subRun, hd]⟩

/-- Witness for C3 at a concrete 3-byte frame. -/
theorem short_frame_crashes_sub_loop_witness :
    ([0, 0, 0] : List Nat).length < 8 ∧
    subRun [{ ctxDone := false, recv := RecvResult.ok [0, 0, 0], writeErr := none }]
      = ([SubAction.closeSession], SubFinal.crashed) :=
  ⟨by decide, (short_frame_crashes_sub_loop [0, 0, 0] none [] (by decide)).2⟩

/-- C9 counterexample: with no bus binding (`spSock = nil`) an inbound
packet is NOT pushed into the sample reassembler — the iteration skips
before `sb.Push(p)`, refuting the claim that the packet is reassembled
and only the resulting sample discarded. -/
theorem pub_unbound_push_counterexample :
    PubAction.sbPush ∉ (pubStep NewConn
      { quitClosed := false, readResult := ReadResult.ok,
        popResult := some (1, [2]), sendErr := none }).1 := by
  decide

/-- C9 as amended: while the session has no bus binding, an inbound
packet is dropped before reassembly — the iteration performs no push,
produces no sample, publishes nothing, reports nothing, and simply
continues, so no backlog accumulates. -/
theorem pub_unbound_drops_packets (c : Conn) (it : PubIter)
    (hs : c.spSock = none) (hq : it.quitClosed = false)
    (hr : it.readResult = ReadResult.ok) :
    pubStep c it = ([], true) := by
  simp [pubStep, hq, hr, hs]

/-- Witness for the amended C9 at a concrete state and iteration. -/
theorem pub_unbound_drops_packets_witness :
    NewConn.spSock = none ∧
    pubStep NewConn
      { quitClosed := false, readResult := ReadResult.ok,
        popResult := some (1, [2]), sendErr := none } = ([], true) :=
  ⟨rfl, pub_unbound_drops_packets NewConn
    { quitClosed := false, readResult := ReadResult.ok,
      popResult := some (1, [2]), sendErr := none } rfl rfl rfl⟩

/-- A successful publisher connect stores the topic derived from the
command's channel name. -/
lemma connectPublisher_ok_spTopic (pw : List Nat) (regErr : Option String)
    (c cp : Conn) (cmd : CmdConnect)
    (h : connectPublisher pw regErr c cmd = (cp, none)) :
    cp.spTopic = putUint32LE (hash cmd.Channel) := by
  unfold connectPublisher at h
  rcases regErr with _ | e
  · split_ifs at h
    · simp at h
    · simp at h
    · simp at h
    · simp at h
    · simp only [setTopic, Prod.mk.injEq] at h
      obtain ⟨h1, -⟩ := h
      subst h1
      rfl
  · split_ifs at h <;> simp at h

/-- Whenever `connectSubscriber` reaches the subscribe call, the filter
it hands to `SetOption(OptionSubscribe)` is the topic derived from the
command's channel name. -/
lemma connectSubscriber_filter_eq (o : SubOracle) (sid : Nat) (c cs : Conn)
    (cmd : CmdConnect) (e : Option String) (filt : List Nat)
    (h : connectSubscriber o sid c cmd = (cs, e, some filt)) :
    filt = putUint32LE (hash cmd.Channel) := by
  unfold connectSubscriber at h
  obtain ⟨ne, de, se, re⟩ := o
  split_ifs at h
  · simp at h
  · simp at h
  · simp at h
  · rcases ne with _ | en
    · rcases de with _ | ed
      · rcases se with _ | es
        · rcases re with _ | er
          · simp only [setTopic, Prod.mk.injEq] at h
            obtain ⟨-, -, h3⟩ := h
            exact (Option.some.inj h3).symm
          · simp only [setTopic, Prod.mk.injEq] at h
            obtain ⟨-, -, h3⟩ := h
            exact (Option.some.inj h3).symm
        · simp only [setTopic, Prod.mk.injEq] at h
          obtain ⟨-, -, h3⟩ := h
          exact (Option.some.inj h3).symm
      · simp at h
    · simp at h

/-- C1.  `Close` is idempotent: on a not-yet-closed session the first
call sets the closed flag; any number of further calls (the mutex
serializes concurrent callers into such a sequence) adds no action, so
across all calls every owned resource is released at most once, and
exactly once when it is present (with the bus socket released only for
non-publishers). -/
theorem Close_idempotent (c : Conn) (n : Nat) (h : c.hasClosed = false) :
    (Close c).1.hasClosed = true ∧
    (closeN (n + 1) c).2 = (Close c).2 ∧
    (∀ a, (Close c).2.count a ≤ 1) ∧
    (Close c).2.count CloseAction.closeQuitChan = (if c.trackQuitChan then 1 else 0) ∧
    (Close c).2.count CloseAction.closeRtcPeer = (if c.rtcPeer then 1 else 0) ∧
    (Close c).2.count CloseAction.closeWs = (if c.wsConn then 1 else 0) ∧
    ∀ s, (Close c).2.count (CloseAction.closeSock s)
      = (if c.spSock = some s ∧ c.isPublisher = false then 1 else 0) := by
  have h2 : (closeN (n + 1) c).2 = (Close c).2 := by
    simp [closeN, closeN_of_closed n _ (Close_fst_hasClosed c)]
  refine ⟨Close_fst_hasClosed c, h2, ?_, ?_, ?_, ?_, ?_⟩
  all_goals
    obtain ⟨rtc, ws, sp, cn, st, tq, ip, hcl⟩ := c
  all_goals
    have hcf : hcl = false := h
  all_goals
    subst hcf
  · have hnodup : ((Close ⟨rtc, ws, sp, cn, st, tq, ip, false⟩).2).Nodup := by
      unfold Close
      rcases sp with _ | s2 <;> split_ifs <;> simp
    exact fun a => List.nodup_iff_count_le_one.mp hnodup a
  · unfold Close
    rcases sp with _ | s2 <;> split_ifs <;>
      simp_all [List.count_append, List.count_cons, List.count_nil]
  · unfold Close
    rcases sp with _ | s2 <;> split_ifs <;>
      simp_all [List.count_append, List.count_cons, List.count_nil]
  · unfold Close
    rcases sp with _ | s2 <;> split_ifs <;>
      simp_all [List.count_append, List.count_cons, List.count_nil]
  · intro s
    unfold Close
    rcases sp with _ | s2
    · split_ifs <;> simp_all [List.count_append, List.count_cons, List.count_nil]
    · by_cases hs : s2 = s
      · subst hs
        split_ifs <;> simp_all [List.count_append, List.count_cons, List.count_nil]
      · split_ifs <;> simp_all [List.count_append, List.count_cons, List.count_nil]

/-- A fully set-up, not-yet-closed subscriber session, used as witness
input. -/
def closeWitnessConn : Conn :=
  { rtcPeer := true, wsConn := true, spSock := some (SockId.priv 0), channelName := [97],
    spTopic := [44, 41, 12, 228], trackQuitChan := true, isPublisher := false,
    hasClosed := false }

/-- Witness for C1: two `Close` calls on a live subscriber perform the
teardown of the first call only, and its bus socket is closed exactly
once. -/
theorem Close_idempotent_witness :
    closeWitnessConn.hasClosed = false ∧
    (Close closeWitnessConn).1.hasClosed = true ∧
    (closeN 2 closeWitnessConn).2 = (Close closeWitnessConn).2 ∧
    (Close closeWitnessConn).2.count (CloseAction.closeSock (SockId.priv 0)) = 1 := by
  have h := Close_idempotent closeWitnessConn 1 rfl
  refine ⟨rfl, h.1, h.2.1, ?_⟩
  have h4 := h.2.2.2.2.2.2 (SockId.priv 0)
  simpa [closeWitnessConn] using h4

/-- C2.  A session bound as publisher stores the shared process-wide
publish socket, and its `Close` never emits a socket-close action: the
shared publish handle is never closed by a session's teardown (only a
subscriber's private socket is). -/
theorem publisher_close_keeps_shared_socket (pw : List Nat) (regErr : Option String)
    (c cp : Conn) (cmd : CmdConnect)
    (h : dispatchConnectPublisher pw regErr c cmd = (cp, none)) :
    cp.spSock = some SockId.pub ∧ cp.isPublisher = true ∧
    ∀ s, CloseAction.closeSock s ∉ (Close cp).2 := by
  unfold dispatchConnectPublisher connectPublisher at h
  rcases regErr with _ | e
  · split_ifs at h
    · simp at h
    · simp at h
    · simp at h
    · simp at h
    · simp only [setTopic, Prod.mk.injEq] at h
      obtain ⟨h1, -⟩ := h
      subst h1
      exact ⟨rfl, rfl, fun s => Close_publisher_no_sock_action _ rfl s⟩
  · split_ifs at h <;> simp at h

/-- The session state produced by a successful publisher bind on
channel "a" from a negotiated session. -/
def pubWitnessConn : Conn :=
  { rtcPeer := true, wsConn := true, spSock := some SockId.pub, channelName := [97],
    spTopic := [44, 41, 12, 228], trackQuitChan := true, isPublisher := true,
    hasClosed := false }

/-- Witness for C2 at a concrete publisher bind. -/
theorem publisher_close_keeps_shared_socket_witness :
    dispatchConnectPublisher [] none { NewConn with rtcPeer := true }
        { Channel := [97], Password := [] } = (pubWitnessConn, none) ∧
    pubWitnessConn.spSock = some SockId.pub ∧
    CloseAction.closeSock SockId.pub ∉ (Close pubWitnessConn).2 :=
  ⟨by decide, by decide,
    (publisher_close_keeps_shared_socket [] none { NewConn with rtcPeer := true }
      pubWitnessConn { Channel := [97], Password := [] } (by decide)).2.2 SockId.pub⟩

/-- C5.  Topic derivation is deterministic and pure: the topic is the
32-bit FNV-1a hash of the name's bytes packed little-endian into
exactly 4 bytes; equal names yield equal topics; and for the same
channel name the subscriber's subscription-filter bytes equal both the
publisher session's stored topic and the 4-byte prefix of every frame
the publisher encodes. -/
theorem topic_derivation_consistent :
    (∀ name : List Nat, (putUint32LE (hash name)).length = 4 ∧ hash name < 4294967296) ∧
    (∀ n1 n2 : List Nat, n1 = n2 → putUint32LE (hash n1) = putUint32LE (hash n2)) ∧
    (∀ (pw : List Nat) (regErr : Option String) (c cp : Conn) (cmd : CmdConnect)
        (o : SubOracle) (sid : Nat) (c2 cs : Conn) (e : Option String) (filt : List Nat),
      dispatchConnectPublisher pw regErr c cmd = (cp, none) →
      connectSubscriber o sid c2 cmd = (cs, e, some filt) →
      cp.spTopic = filt ∧
      ∀ samples payload, (encodeFrame cp.spTopic samples payload).take 4 = filt) := by
  refine ⟨fun name => ⟨putUint32LE_length _, hash_lt name⟩,
    fun n1 n2 hn => by rw [hn], ?_⟩
  intro pw regErr c cp cmd o sid c2 cs e filt hp hs
  have h1 : cp.spTopic = putUint32LE (hash cmd.Channel) :=
    connectPublisher_ok_spTopic pw regErr { c with isPublisher := true } cp cmd hp
  have h2 : filt = putUint32LE (hash cmd.Channel) :=
    connectSubscriber_filter_eq o sid c2 cs cmd e filt hs
  constructor
  · rw [h1, h2]
  · intro samples payload
    rw [h2, h1]
    exact List.take_left' (putUint32LE_length _)

/-- The session state produced by a successful subscriber bind on
channel "a" from a negotiated session. -/
def subWitnessConn : Conn :=
  { rtcPeer := true, wsConn := true, spSock := some (SockId.priv 0), channelName := [97],
    spTopic := [44, 41, 12, 228], trackQuitChan := true, isPublisher := false,
    hasClosed := false }

/-- Witness for C5: a concrete publisher bind and subscriber bind on
the same channel name "a" agree on the 4 topic bytes. -/
theorem topic_derivation_consistent_witness :
    dispatchConnectPublisher [] none { NewConn with rtcPeer := true }
        { Channel := [97], Password := [] } = (pubWitnessConn, none) ∧
    connectSubscriber
        { newSockErr := none, dialErr := none, subscribeErr := none, regErr := none }
        0 { NewConn with rtcPeer := true } { Channel := [97], Password := [] }
      = (subWitnessConn, none, some [44, 41, 12, 228]) ∧
    pubWitnessConn.spTopic = [44, 41, 12, 228] :=
  ⟨by decide, by decide,
    (topic_derivation_consistent.2.2 [] none { NewConn with rtcPeer := true } pubWitnessConn
      { Channel := [97], Password := [] }
      { newSockErr := none, dialErr := none, subscribeErr := none, regErr := none }
      0 { NewConn with rtcPeer := true } subWitnessConn none [44, 41, 12, 228]
      (by decide) (by decide)).1⟩

/-- C6.  Connect validation is atomic: with the media session not
established, or an empty channel name, or a name containing a byte
outside ASCII alphanumerics and space, or (publisher with a configured
secret) a wrong password, both connect paths return an error and leave
the session state completely unchanged; "room 1" passes the character
check while "room#1" fails it. -/
theorem connect_validation_atomic :
    (∀ (pw : List Nat) (regErr : Option String) (c : Conn) (cmd : CmdConnect),
      (c.rtcPeer = false ∨ cmd.Channel = [] ∨ channelRegexpMatch cmd.Channel = true ∨
        (pw ≠ [] ∧ cmd.Password ≠ pw)) →
      (connectPublisher pw regErr c cmd).1 = c ∧
      ((connectPublisher pw regErr c cmd).2).isSome = true) ∧
    (∀ (o : SubOracle) (sid : Nat) (c : Conn) (cmd : CmdConnect),
      (c.rtcPeer = false ∨ cmd.Channel = [] ∨ channelRegexpMatch cmd.Channel = true) →
      (connectSubscriber o sid c cmd).1 = c ∧
      ((connectSubscriber o sid c cmd).2.1).isSome = true) ∧
    channelRegexpMatch [114, 111, 111, 109, 32, 49] = false ∧
    channelRegexpMatch [114, 111, 111, 109, 35, 49] = true := by
  refine ⟨?_, ?_, by decide, by decide⟩
  · intro pw regErr c cmd h
    unfold connectPublisher
    split_ifs with h1 h2 h3 h4
    · exact ⟨rfl, rfl⟩
    · exact ⟨rfl, rfl⟩
    · exact ⟨rfl, rfl⟩
    · exact ⟨rfl, rfl⟩
    · exfalso
      rcases h with h | h | h | h
      · exact h1 h
      · exact h2 h
      · exact h3 h
      · exact h4 h
  · intro o sid c cmd h
    unfold connectSubscriber
    split_ifs with h1 h2 h3
    · exact ⟨rfl, rfl⟩
    · exact ⟨rfl, rfl⟩
    · exact ⟨rfl, rfl⟩
    · exfalso
      rcases h with h | h | h
      · exact h1 h
      · exact h2 h
      · exact h3 h

/-- Witness for C6: a session with no negotiated media session rejects
a publisher connect unchanged, and a subscriber connect on channel name
"room#1" is rejected unchanged. -/
theorem connect_validation_atomic_witness :
    NewConn.rtcPeer = false ∧
    (connectPublisher [] none NewConn { Channel := [97], Password := [] }).1 = NewConn ∧
    channelRegexpMatch [114, 111, 111, 109, 35, 49] = true ∧
    (connectSubscriber
        { newSockErr := none, dialErr := none, subscribeErr := none, regErr := none }
        0 { NewConn with rtcPeer := true }
        { Channel := [114, 111, 111, 109, 35, 49], Password := [] }).2.1.isSome = true :=
  ⟨rfl,
    (connect_validation_atomic.1 [] none NewConn { Channel := [97], Password := [] }
      (Or.inl rfl)).1,
    by decide,
    (connect_validation_atomic.2.1
      { newSockErr := none, dialErr := none, subscribeErr := none, regErr := none }
      0 { NewConn with rtcPeer := true }
      { Channel := [114, 111, 111, 109, 35, 49], Password := [] }
      (Or.inr (Or.inr (by decide)))).2⟩

end Babelcast
